import Mathlib

/-!
Verification of the Media Resolution & Download Pipeline
(repository DeepNew88/Testing).

Shallow embedding of:
  * src/anony/helpers/_httpx.py  — HttpxClient (headers, JSON request with
    retry/backoff, streaming file download)
  * src/anony/core/youtube.py    — YouTube (URL classification, search /
    playlist track construction, download orchestration)

Python strings are modelled as Lean strings, operated on through their
character lists; machine-level effects (HTTP, filesystem, sleeping) are
modelled by explicit environments and traces.
-/

namespace AnonPipeline

/-! ## String primitives (Python built-ins used by the source) -/

/-- Match a literal character sequence at the head of a list, returning the
remainder on success.  Used to model Python prefix tests and separators. -/
def stripLit : List Char → List Char → Option (List Char)
  | [], cs => some cs
  | _ :: _, [] => none
  | p :: ps, c :: cs => if c = p then stripLit ps cs else none

/-- Python `s.startswith(pre)`. -/
def pyStartsWith (s pre : String) : Bool := (stripLit pre.data s.data).isSome

/-- Python `s.split(sep)` for a one-character separator: splits on every
occurrence and keeps empty segments. -/
def splitOnChar (sep : Char) : List Char → List (List Char)
  | [] => [[]]
  | c :: rest =>
    let r := splitOnChar sep rest
    if c = sep then [] :: r else (c :: r.headI) :: r.tail

/-- First occurrence of a (nonempty) separator sequence: returns the text
before it and the text after it. -/
def findSplit (sep : List Char) : List Char → Option (List Char × List Char)
  | [] => none
  | c :: rest =>
    match stripLit sep (c :: rest) with
    | some rem => some ([], rem)
    | none =>
      match findSplit sep rest with
      | some (b, a) => some (c :: b, a)
      | none => none

/-- Python `s.split(sep)[0]` for a multi-character separator: the text before
the first occurrence, or the whole string when the separator is absent. -/
def splitBefore (s sep : String) : String :=
  match findSplit sep.data s.data with
  | some (b, _) => String.mk b
  | none => s

/-- Python `s.rstrip(c)`: remove every trailing occurrence of the character. -/
def pyRstrip (s : String) (ch : Char) : String :=
  String.mk ((s.data.reverse.dropWhile (fun c => c = ch)).reverse)

/-- Python `s.strip()` (whitespace at both ends), as used by `int()`. -/
def pyTrim (s : String) : List Char :=
  ((s.data.dropWhile Char.isWhitespace).reverse.dropWhile Char.isWhitespace).reverse

/-- Digit-or-underscore body of a Python integer literal: every underscore
must sit between two digits. -/
def intBody : List Char → Bool
  | [] => true
  | c :: rest =>
    if c.isDigit then intBody rest
    else if c = '_' then
      (match rest with
       | r :: _ => r.isDigit
       | [] => false) && intBody rest
    else false

/-- Numeric value of a digit list. -/
def digitsVal (cs : List Char) : Nat :=
  cs.foldl (fun a c => a * 10 + (c.toNat - 48)) 0

/-- Python `int(s)`: strips surrounding whitespace, accepts an optional sign
and digits (with underscores between digits); `none` models `ValueError`. -/
def pyInt? (s : String) : Option Int :=
  let cs := pyTrim s
  let sgn : Int := match cs with
    | '-' :: _ => -1
    | _ => 1
  let ds : List Char := match cs with
    | '+' :: r => r
    | '-' :: r => r
    | r => r
  match ds with
  | [] => none
  | c :: _ =>
    if c.isDigit && intBody ds then
      some (sgn * (digitsVal (ds.filter (fun x => x ≠ '_')) : Int))
    else none

/-- Python `parts[-2], parts[-1]`: the last two elements of a list, `none`
modelling the `IndexError` raised when fewer than two exist. -/
def last2 (l : List String) : Option (String × String) :=
  match l.reverse with
  | a :: b :: _ => some (b, a)
  | _ => none

/-! ## Transport — JSON request (HttpxClient.make_request,
src/anony/helpers/_httpx.py lines 77-126) -/

/-- Outcome of one `GET` attempt, as the `except` clauses of `make_request`
distinguish them: `statusError` is `httpx.HTTPStatusError` (raised by
`raise_for_status`), `requestError` is `httpx.RequestError` (network-level),
`okJson` is a 2xx response whose body parses as JSON, `okNonJson` is a 2xx
response whose body raises `ValueError` in `response.json()`. -/
inductive NetResp (α : Type) where
  | statusError : NetResp α
  | requestError : NetResp α
  | okJson : α → NetResp α
  | okNonJson : NetResp α
deriving DecidableEq

/-- Observable behaviour of one `make_request` call: the returned value, the
list of `asyncio.sleep` durations performed (in order), and the number of
network `GET` calls issued. -/
structure ReqTrace (α : Type) where
  result : Option α
  sleeps : List ℚ
  calls : Nat
deriving DecidableEq

/-- The `for attempt in range(max_retries)` loop of `make_request`.
`attempt` is the current 0-based index, the second argument the remaining
iterations.  On a status or request error the loop logs, sleeps
`backoff_factor * 2 ** attempt` and continues; on a 2xx JSON body it returns
the parsed object; on a 2xx non-JSON body (`ValueError`) it returns `None`
at once, without sleeping. -/
def mrLoop (oracle : Nat → NetResp α) (backoff : ℚ) : Nat → Nat → ReqTrace α
  | _, 0 => ⟨none, [], 0⟩
  | attempt, fuel + 1 =>
    match oracle attempt with
    | NetResp.okJson j => ⟨some j, [], 1⟩
    | NetResp.okNonJson => ⟨none, [], 1⟩
    | NetResp.statusError =>
      let r := mrLoop oracle backoff (attempt + 1) fuel
      ⟨r.result, backoff * 2 ^ attempt :: r.sleeps, r.calls + 1⟩
    | NetResp.requestError =>
      let r := mrLoop oracle backoff (attempt + 1) fuel
      ⟨r.result, backoff * 2 ^ attempt :: r.sleeps, r.calls + 1⟩

/-- `HttpxClient.make_request(url, max_retries, backoff_factor)`.  An empty
URL returns `None` with no network call; otherwise the retry loop runs with
attempt indices `0 .. max_retries - 1` and falling out of the loop returns
`None`.  The `oracle` gives the network's response to the i-th `GET`. -/
def make_request (url : String) (oracle : Nat → NetResp α)
    (max_retries : Nat) (backoff_factor : ℚ) : ReqTrace α :=
  if url = "" then ⟨none, [], 0⟩
  else mrLoop oracle backoff_factor 0 max_retries

/-- An endpoint that always fails with a retryable error (HTTP status error
or network-level request error). -/
def alwaysFails (oracle : Nat → NetResp α) : Prop :=
  ∀ i, oracle i = NetResp.statusError ∨ oracle i = NetResp.requestError

theorem mrLoop_fail {α : Type} {oracle : Nat → NetResp α}
    (h : alwaysFails oracle) (backoff : ℚ) :
    ∀ fuel attempt, mrLoop oracle backoff attempt fuel =
      ⟨none, (List.range fuel).map (fun i => backoff * 2 ^ (attempt + i)), fuel⟩ := by
  intro fuel
  induction fuel with
  | zero => intro attempt; simp [mrLoop]
  | succ n ih =>
    intro attempt
    have hmap : (List.range (n + 1)).map (fun i => backoff * 2 ^ (attempt + i)) =
        backoff * 2 ^ attempt ::
          (List.range n).map (fun i => backoff * 2 ^ (attempt + 1 + i)) := by
      rw [List.range_succ_eq_map, List.map_cons, List.map_map]
      have h1 : ((fun i => backoff * 2 ^ (attempt + i)) ∘ Nat.succ)
          = fun i => backoff * 2 ^ (attempt + 1 + i) := by
        funext i
        have h2 : attempt + Nat.succ i = attempt + 1 + i := by omega
        show backoff * 2 ^ (attempt + Nat.succ i) = _
        rw [h2]
      rw [h1, Nat.add_zero]
    rcases h attempt with h0 | h0 <;>
      simp [mrLoop, h0, ih (attempt + 1), hmap, Nat.add_comm, Nat.add_assoc,
        Nat.add_left_comm]

/-- Claim C2 — a JSON request against an endpoint that always fails with an
HTTP status error or a network-level request error is attempted exactly
`max_retries` times, sleeps `backoff_factor * 2 ^ attempt` after the i-th
attempt (0-based, so the delay between attempts i and i+1 is
`backoff_factor * 2 ^ i`), and returns null once the attempts are
exhausted. -/
theorem make_request_retry_bound {α : Type} (url : String)
    (oracle : Nat → NetResp α) (max_retries : Nat) (backoff_factor : ℚ)
    (hurl : url ≠ "") (hmr : 1 ≤ max_retries) (h : alwaysFails oracle) :
    make_request url oracle max_retries backoff_factor =
      ⟨none, (List.range max_retries).map (fun i => backoff_factor * 2 ^ i),
        max_retries⟩ := by
  have := mrLoop_fail h backoff_factor max_retries 0
  simpa [make_request, hurl] using this

/-- Witness for C2: two attempts against an always-failing endpoint make
exactly 2 calls, sleep 1 then 2 seconds, and return null. -/
theorem make_request_retry_bound_witness :
    make_request "https://api.example.com/api/track"
        (fun _ => (NetResp.statusError : NetResp String)) 2 1 =
      ⟨none, (List.range 2).map (fun i => (1 : ℚ) * 2 ^ i), 2⟩ :=
  make_request_retry_bound _ _ _ _ (by decide) (by decide)
    (fun _ => Or.inl rfl)

/-- Claim C5 — a 2xx response whose body is not JSON-parseable is never
retried: the call performs exactly one network `GET`, sleeps never, and
returns null immediately. -/
theorem make_request_nonjson_no_retry {α : Type} (url : String)
    (oracle : Nat → NetResp α) (max_retries : Nat) (backoff_factor : ℚ)
    (hurl : url ≠ "") (hmr : 1 ≤ max_retries)
    (h0 : oracle 0 = NetResp.okNonJson) :
    make_request url oracle max_retries backoff_factor = ⟨none, [], 1⟩ := by
  obtain ⟨n, rfl⟩ : ∃ n, max_retries = n + 1 :=
    ⟨max_retries - 1, (Nat.succ_pred_eq_of_pos hmr).symm⟩
  simp [make_request, hurl, mrLoop, h0]

/-- Witness for C5: a first-attempt non-JSON 2xx body yields one call, no
sleep and a null result. -/
theorem make_request_nonjson_no_retry_witness :
    make_request "https://api.example.com/api/track"
        (fun _ => (NetResp.okNonJson : NetResp String)) 2 1 =
      ⟨none, [], 1⟩ :=
  make_request_nonjson_no_retry _ _ _ _ (by decide) (by decide) rfl

/-- Claim C10 — when every attempt fails with a retryable error, the backoff
sleep runs after every failed attempt including the final one: there are
`max_retries` sleeps and the last one is
`backoff_factor * 2 ^ (max_retries - 1)`. -/
theorem make_request_trailing_sleep {α : Type} (url : String)
    (oracle : Nat → NetResp α) (max_retries : Nat) (backoff_factor : ℚ)
    (hurl : url ≠ "") (hmr : 1 ≤ max_retries) (h : alwaysFails oracle) :
    (make_request url oracle max_retries backoff_factor).sleeps.length
        = max_retries ∧
    (make_request url oracle max_retries backoff_factor).sleeps.getLast?
        = some (backoff_factor * 2 ^ (max_retries - 1)) := by
  obtain ⟨n, rfl⟩ : ∃ n, max_retries = n + 1 :=
    ⟨max_retries - 1, (Nat.succ_pred_eq_of_pos hmr).symm⟩
  have hrun := mrLoop_fail h backoff_factor (n + 1) 0
  have hmk : make_request url oracle (n + 1) backoff_factor =
      ⟨none, (List.range (n + 1)).map (fun i => backoff_factor * 2 ^ (0 + i)),
        n + 1⟩ := by
    simpa [make_request, hurl] using hrun
  rw [hmk]
  constructor
  · simp
  · simp [List.range_succ, List.getLast?_concat]

/-- Witness for C10: with two always-failing attempts and backoff factor 1,
there are two sleeps and the trailing one is 2 = 1 * 2 ^ (2 - 1) seconds. -/
theorem make_request_trailing_sleep_witness :
    (make_request "https://api.example.com/api/track"
        (fun _ => (NetResp.requestError : NetResp String)) 2 1).sleeps.length = 2 ∧
    (make_request "https://api.example.com/api/track"
        (fun _ => (NetResp.requestError : NetResp String)) 2 1).sleeps.getLast?
      = some ((1 : ℚ) * 2 ^ (2 - 1)) :=
  make_request_trailing_sleep _ _ _ _ (by decide) (by decide)
    (fun _ => Or.inr rfl)

/-! ## Transport — header construction (HttpxClient._get_headers,
src/anony/helpers/_httpx.py lines 63-72) -/

/-- Lookup in a Python dict modelled as an ordered association list. -/
def hGet : List (String × String) → String → Option String
  | [], _ => none
  | (k1, v1) :: rest, key => if k1 = key then some v1 else hGet rest key

/-- Python `d[key] = v`: replace the value at an existing key in place, or
append the binding at the end (dicts carry no duplicate keys). -/
def hSet : List (String × String) → String → String → List (String × String)
  | [], key, v => [(key, v)]
  | (k1, v1) :: rest, key, v =>
    if k1 = key then (key, v) :: rest else (k1, v1) :: hSet rest key v

/-- Python `d.setdefault(key, v)`: insert only when the key is absent. -/
def hSetDefault (hs : List (String × String)) (key v : String) :
    List (String × String) :=
  match hGet hs key with
  | some _ => hs
  | none => hs ++ [(key, v)]

/-- `HttpxClient._get_headers(url, base_headers)`: copies the base headers,
adds `X-API-Key` when `API_URL` and `API_KEY` are truthy and
`url.startswith(API_URL)`, then sets a default `User-Agent`.  The
configuration values `API_URL`/`API_KEY` are passed explicitly. -/
def get_headers (api_url api_key url : String)
    (base_headers : List (String × String)) : List (String × String) :=
  hSetDefault
    (if api_url ≠ "" ∧ api_key ≠ "" ∧ pyStartsWith url api_url = true then
      hSet base_headers "X-API-Key" api_key
     else base_headers)
    "User-Agent" "AnonXMusicBot/1.0"

/-- Modelled from the spec: the origin of a URL — its scheme together with
the authority (host and port), i.e. everything up to the first `/` after the
`://` separator.  Used only to state the spec's origin-match requirement;
the source itself performs a plain string-prefix test. -/
def urlOrigin (u : String) : String :=
  match findSplit ("://".data) u.data with
  | some (sch, rest) =>
    String.mk (sch ++ "://".data ++ rest.takeWhile (fun c => c ≠ '/'))
  | none => u

theorem hGet_hSet_self (hs : List (String × String)) (k v : String) :
    hGet (hSet hs k v) k = some v := by
  induction hs with
  | nil => simp [hSet, hGet]
  | cons p rest ih =>
    obtain ⟨k1, v1⟩ := p
    by_cases h : k1 = k <;> simp [hSet, hGet, h, ih]

theorem hGet_hSet_other (hs : List (String × String)) (k v k' : String)
    (h : k' ≠ k) : hGet (hSet hs k v) k' = hGet hs k' := by
  induction hs with
  | nil => simp [hSet, hGet, Ne.symm h]
  | cons p rest ih =>
    obtain ⟨k1, v1⟩ := p
    by_cases h1 : k1 = k
    · subst h1
      simp [hSet, hGet, Ne.symm h]
    · simp [hSet, hGet, h1, ih]

theorem hGet_append_of_none (hs : List (String × String)) (k v : String)
    (h : hGet hs k = none) : hGet (hs ++ [(k, v)]) k = some v := by
  induction hs with
  | nil => simp [hGet]
  | cons p rest ih =>
    obtain ⟨k1, v1⟩ := p
    by_cases h1 : k1 = k
    · simp [hGet, h1] at h
    · simp [hGet, h1] at h ⊢
      exact ih h

theorem hGet_hSetDefault_self (hs : List (String × String)) (k v : String) :
    hGet (hSetDefault hs k v) k = some ((hGet hs k).getD v) := by
  unfold hSetDefault
  cases h : hGet hs k with
  | some x => simp [h]
  | none => simp [hGet_append_of_none hs k v h]

theorem hGet_append_other (hs : List (String × String)) (k v k' : String)
    (h : k' ≠ k) : hGet (hs ++ [(k, v)]) k' = hGet hs k' := by
  induction hs with
  | nil => simp [hGet, Ne.symm h]
  | cons p rest ih =>
    obtain ⟨k1, v1⟩ := p
    by_cases h1 : k1 = k' <;> simp [hGet, h1, ih]

theorem hGet_hSetDefault_other (hs : List (String × String)) (k v k' : String)
    (h : k' ≠ k) : hGet (hSetDefault hs k v) k' = hGet hs k' := by
  unfold hSetDefault
  cases hh : hGet hs k with
  | some x => rfl
  | none => exact hGet_append_other hs k v k' h

/-- Claim C4 (amended) — `_get_headers` injects `X-API-Key` exactly when
`API_URL` and `API_KEY` are nonempty and the request URL starts with the
`API_URL` string (a string-prefix test, not an origin comparison), and the
returned `User-Agent` is the caller's when set, else the default
`AnonXMusicBot/1.0`. -/
theorem get_headers_spec (api_url api_key url : String)
    (base : List (String × String)) :
    hGet (get_headers api_url api_key url base) "X-API-Key"
      = (if api_url ≠ "" ∧ api_key ≠ "" ∧ pyStartsWith url api_url = true
          then some api_key else hGet base "X-API-Key")
    ∧ hGet (get_headers api_url api_key url base) "User-Agent"
      = some ((hGet base "User-Agent").getD "AnonXMusicBot/1.0") := by
  unfold get_headers
  by_cases hc : api_url ≠ "" ∧ api_key ≠ "" ∧ pyStartsWith url api_url = true
  · rw [if_pos hc, if_pos hc]
    constructor
    · rw [hGet_hSetDefault_other _ _ _ _ (by decide)]
      exact hGet_hSet_self base "X-API-Key" api_key
    · rw [hGet_hSetDefault_self, hGet_hSet_other _ _ _ _ (by decide)]
  · rw [if_neg hc, if_neg hc]
    constructor
    · exact hGet_hSetDefault_other _ _ _ _ (by decide)
    · exact hGet_hSetDefault_self base "User-Agent" "AnonXMusicBot/1.0"

/-- Counterexample to Claim C4 as stated: with trusted base
`https://api.example.com` and key `k`, a request to the third-party host
`api.example.com.evil.test` — whose URL merely extends the base as a string —
still receives the `X-API-Key` header, although its origin differs from the
configured API origin. -/
theorem get_headers_cross_origin_leak :
    hGet (get_headers "https://api.example.com" "k"
        "https://api.example.com.evil.test/a" []) "X-API-Key" = some "k"
    ∧ urlOrigin "https://api.example.com.evil.test/a"
        ≠ urlOrigin "https://api.example.com" := by
  constructor
  · decide
  · decide

/-! ## Transport — streaming download (HttpxClient.download_file,
src/anony/helpers/_httpx.py lines 131-184) -/

/-- `dataclass DownloadResult(success, file_path=None, error=None)`. -/
structure DownloadResult where
  success : Bool
  file_path : Option String
  error : Option String
deriving DecidableEq

/-- Hex digit value, for percent decoding. -/
def hexVal? (c : Char) : Option Nat :=
  if c.isDigit then some (c.toNat - 48)
  else if 'a' ≤ c ∧ c ≤ 'f' then some (c.toNat - 87)
  else if 'A' ≤ c ∧ c ≤ 'F' then some (c.toNat - 55)
  else none

/-- UTF-8 bytes of one character. -/
def utf8Bytes (c : Char) : List Nat :=
  (String.singleton c).toUTF8.toList.map UInt8.toNat

/-- Percent decoding to a byte sequence: `%XX` with two hex digits becomes
one byte, everything else contributes its UTF-8 bytes. -/
def pctBytes : List Char → List Nat
  | [] => []
  | '%' :: h1 :: h2 :: rest =>
    match hexVal? h1, hexVal? h2 with
    | some a, some b => (a * 16 + b) :: pctBytes rest
    | _, _ => utf8Bytes '%' ++ pctBytes (h1 :: h2 :: rest)
  | c :: rest => utf8Bytes c ++ pctBytes rest

/-- Python `urllib.parse.unquote(s)`: percent-decode then UTF-8 decode.
Python maps undecodable byte sequences to U+FFFD one by one
(errors="replace"); here an undecodable result falls back to a bytewise
ASCII/U+FFFD rendering, which the pipeline never hits for the filenames it
handles. -/
def unquote (s : String) : String :=
  let bs := pctBytes s.data
  match String.fromUTF8? (ByteArray.mk (Array.mk (bs.map Nat.toUInt8))) with
  | some t => t
  | none => String.mk (bs.map (fun b => if b < 128 then Char.ofNat b else '�'))

/-- One attempt of `re.search(r'filename="?([^"]+)"?', cd)` anchored at the
current position: the literal `filename=`, an optional quote, then one or
more non-quote characters (the captured group). -/
def cdTry (cs : List Char) : Option (List Char) :=
  match stripLit ("filename=".data) cs with
  | none => none
  | some rest =>
    match rest with
    | '"' :: r2 =>
      match r2.takeWhile (fun c => c ≠ '"') with
      | [] => none
      | run => some run
    | r =>
      match r.takeWhile (fun c => c ≠ '"') with
      | [] => none
      | run => some run

/-- `re.search` over the whole header value: leftmost position whose attempt
succeeds. -/
def cdSearch : List Char → Option (List Char)
  | [] => none
  | c :: rest =>
    match cdTry (c :: rest) with
    | some g => some g
    | none => cdSearch rest

/-- Python `Path(url).name`: the final path component (empty components and
`.` are dropped, a trailing slash is ignored). -/
def pathName (u : String) : String :=
  match ((splitOnChar '/' u.data).filter
      (fun p => p ≠ [] ∧ p ≠ ['.'])).getLast? with
  | some p => String.mk p
  | none => ""

/-- Python `Path(d) / f`: an absolute second operand replaces the first. -/
def pathJoin (d f : String) : String :=
  if pyStartsWith f "/" then f else d ++ "/" ++ f

/-- Response of the server to one streamed `GET`, as `download_file`
observes it: `ok` is whether the request connects and `raise_for_status`
passes; `contentDisposition` the `Content-Disposition` header (empty when
absent); `streamOk` whether iterating the body chunks completes without an
exception. -/
structure StreamResp where
  ok : Bool
  contentDisposition : String
  streamOk : Bool

/-- Environment of `download_file`: the per-URL network behaviour and the
configuration (`DOWNLOADS_DIR`) plus the fresh name `uuid.uuid4().hex`
would produce. -/
structure DlEnv where
  resp : String → StreamResp
  downloadsDir : String
  freshName : String

/-- Filesystem state: the set of existing file paths. -/
structure Fs where
  files : List String
deriving DecidableEq

/-- Observable outcome of one `download_file` call: the returned
`DownloadResult`, the filesystem afterwards, the number of network `GET`
requests issued, and the number of response bodies transferred. -/
structure DlOutcome where
  result : DownloadResult
  fs : Fs
  requests : Nat
  bodyReads : Nat
deriving DecidableEq

/-- Destination resolution of `download_file` (lines 154-166): with no
caller-supplied path, the filename comes from the `Content-Disposition`
header (percent-decoded), else from the URL's final path segment, else from
a fresh unique name, and lands inside `DOWNLOADS_DIR`; a caller-supplied
path is used as given. -/
def resolvePath (env : DlEnv) (url : String) (r : StreamResp)
    (file_path : Option String) : String :=
  match file_path with
  | some p => p
  | none =>
    let filename :=
      match cdSearch r.contentDisposition.data with
      | some g => unquote (String.mk g)
      | none =>
        let n := pathName url
        if n = "" then env.freshName else n
    pathJoin env.downloadsDir filename

/-- `HttpxClient.download_file(url, file_path, overwrite)`.  An empty URL
fails without touching the network.  Otherwise the streamed `GET` is opened
first; `raise_for_status` (or a connection failure) turns into a failed
result via the `except` clause.  Only then is the destination resolved and
the existence check performed: an existing destination with
`overwrite=False` returns success without reading the body.  Otherwise the
body is streamed to disk; a mid-stream exception leaves the (partially
written) file in place and returns a failed result. -/
def download_file (env : DlEnv) (url : String) (file_path : Option String)
    (overwrite : Bool) (fs : Fs) : DlOutcome :=
  if url = "" then
    ⟨⟨false, none, some "Empty URL provided"⟩, fs, 0, 0⟩
  else
    let r := env.resp url
    if r.ok = false then
      ⟨⟨false, none, some ("Download failed for " ++ url)⟩, fs, 1, 0⟩
    else
      let path := resolvePath env url r file_path
      if fs.files.contains path ∧ overwrite = false then
        ⟨⟨true, some path, none⟩, fs, 1, 0⟩
      else if r.streamOk then
        ⟨⟨true, some path, none⟩, ⟨path :: fs.files⟩, 1, 1⟩
      else
        ⟨⟨false, none, some ("Download failed for " ++ url)⟩,
          ⟨path :: fs.files⟩, 1, 1⟩

/-- Claim C3 (amended) — when the resolved destination already exists and
`overwrite=false`, `download_file` returns success with that path, reads no
body bytes and leaves the filesystem unchanged; but the existence check runs
only after the streamed `GET` has been opened and its status checked, so the
call still issues exactly one network request.  A repeated download hence
skips the body transfer, not the network round-trip. -/
theorem download_file_existing_dest (env : DlEnv) (url : String)
    (file_path : Option String) (fs : Fs)
    (hurl : url ≠ "") (hok : (env.resp url).ok = true)
    (hex : fs.files.contains (resolvePath env url (env.resp url) file_path)
      = true) :
    download_file env url file_path false fs =
      ⟨⟨true, some (resolvePath env url (env.resp url) file_path), none⟩,
        fs, 1, 0⟩ := by
  unfold download_file
  rw [if_neg hurl]
  simp only [hok]
  have hmem : resolvePath env url (env.resp url) file_path ∈ fs.files := by
    simpa using hex
  simp [hmem]

/-- Witness for the amended C3: a URL whose destination
`downloads/out.m4a` already exists short-circuits with success, one request
and no body read. -/
theorem download_file_existing_dest_witness :
    download_file ⟨fun _ => ⟨true, "", true⟩, "downloads", "u"⟩
        "https://cdn.example/out.m4a" (some "downloads/out.m4a") false
        ⟨["downloads/out.m4a"]⟩ =
      ⟨⟨true, some "downloads/out.m4a", none⟩, ⟨["downloads/out.m4a"]⟩, 1, 0⟩ :=
  download_file_existing_dest _ _ _ _ (by decide) rfl (by decide)

/-- Concrete two-call run used to refute Claim C3 as stated. -/
def dlEnvC3 : DlEnv := ⟨fun _ => ⟨true, "", true⟩, "downloads", "u"⟩

/-- First call: fresh filesystem. -/
def dlCall1 : DlOutcome :=
  download_file dlEnvC3 "https://cdn.example/out.m4a"
    (some "downloads/out.m4a") false ⟨[]⟩

/-- Second call: same URL and destination, on the filesystem the first call
produced. -/
def dlCall2 : DlOutcome :=
  download_file dlEnvC3 "https://cdn.example/out.m4a"
    (some "downloads/out.m4a") false dlCall1.fs

/-- Counterexample to Claim C3 as stated: calling the streaming download
twice with the same destination and `overwrite=false` performs two network
requests, not one — the second call succeeds and transfers no body, but it
still opens a streamed `GET` before the existence check. -/
theorem download_file_second_call_network :
    dlCall2.result.success = true ∧ dlCall2.bodyReads = 0 ∧
    dlCall2.requests = 1 ∧ dlCall1.requests + dlCall2.requests ≠ 1 := by
  decide

/-! ## Resolver — URL classification (YouTube.valid,
src/anony/core/youtube.py lines 16-25)

The compiled pattern is
`(https?://)?(www\.|m\.|music\.)?`
`(youtube\.com/(watch\?v=|shorts/|playlist\?list=)|youtu\.be/)`
`([A-Za-z0-9_-]{11}|PL[A-Za-z0-9_-]+)([&?][^\s]*)?`
and `valid` is `bool(re.match(regex, url))`, i.e. anchored at the start of
the string only.  The finite alternations (scheme, subdomain, host form) are
expanded into explicit literal prefixes; a match succeeds iff some choice
succeeds.  For the id group, the trailing query group `([&?][^\s]*)?` can
always match the empty string, so once the id alternative matches, the whole
prefix match succeeds: the 11-character alternative needs 11 id-class
characters, the `PL` alternative needs `PL` plus at least one id-class
character. -/

/-- The character class `[A-Za-z0-9_-]`. -/
def idChar (c : Char) : Bool := c.isAlpha || c.isDigit || c == '_' || c == '-'

/-- `[A-Za-z0-9_-]{11}` at the head of the input. -/
def take11OK (cs : List Char) : Bool :=
  decide (11 ≤ cs.length) && (cs.take 11).all idChar

/-- `PL[A-Za-z0-9_-]+` at the head, for the prefix-anchored matcher: only
the first repetition matters. -/
def plBranchHead (cs : List Char) : Bool :=
  match cs with
  | a :: b :: c :: _ => a == 'P' && b == 'L' && idChar c
  | _ => false

/-- Id group of the code's prefix-anchored matcher. -/
def matchIdHead (cs : List Char) : Bool :=
  take11OK cs || plBranchHead cs

/-- Try every combination of the optional scheme, optional subdomain and
host-form alternations as a literal prefix, then run the id matcher on the
remainder. -/
def runMatcher (idm : List Char → Bool) (cs : List Char) : Bool :=
  (["https://", "http://", ""] : List String).any fun sc =>
    (["www.", "m.", "music.", ""] : List String).any fun sb =>
      (["youtube.com/watch?v=", "youtube.com/shorts/",
        "youtube.com/playlist?list=", "youtu.be/"] : List String).any fun hf =>
        match stripLit (sc.data ++ sb.data ++ hf.data) cs with
        | some rest => idm rest
        | none => false

/-- `YouTube.valid(url)`: whether `re.match` succeeds, i.e. some prefix of
the input matches the pattern. -/
def valid (url : String) : Bool := runMatcher matchIdHead url.data

/-- Modelled from the spec: full-string membership in the recognized URL
grammar — the same scheme/subdomain/host/id alternations, with the optional
trailing query string (`[&?]` then non-whitespace characters) required to
reach the end of the input.  Id-class characters are never `&`, `?` or
whitespace, so the greedy repetitions need no further backtracking. -/
def tailOK (cs : List Char) : Bool :=
  match cs with
  | [] => true
  | c :: rest => (c == '&' || c == '?') && rest.all (fun x => !x.isWhitespace)

/-- `PL[A-Za-z0-9_-]+` with the rest of the input a valid (possibly empty)
query tail. -/
def plBranchFull (cs : List Char) : Bool :=
  match cs with
  | a :: b :: rest =>
    a == 'P' && b == 'L' && !(rest.takeWhile idChar).isEmpty &&
      tailOK (rest.dropWhile idChar)
  | _ => false

/-- Id group for full-string grammar membership. -/
def matchIdFull (cs : List Char) : Bool :=
  (take11OK cs && tailOK (cs.drop 11)) || plBranchFull cs

/-- Full-string membership in the recognized URL grammar. -/
def inGrammar (s : String) : Bool := runMatcher matchIdFull s.data

theorem plBranch_imp (cs : List Char) (h : plBranchFull cs = true) :
    plBranchHead cs = true := by
  rcases cs with _ | ⟨a, _ | ⟨b, rest⟩⟩
  · simp [plBranchFull] at h
  · simp [plBranchFull] at h
  · simp only [plBranchFull, Bool.and_eq_true] at h
    obtain ⟨⟨⟨ha, hb⟩, hne⟩, _⟩ := h
    rcases rest with _ | ⟨c, r⟩
    · simp at hne
    · by_cases hc : idChar c = true
      · simp [plBranchHead, ha, hb, hc]
      · rw [List.takeWhile_cons] at hne
        simp [hc] at hne

theorem matchIdFull_imp (cs : List Char) (h : matchIdFull cs = true) :
    matchIdHead cs = true := by
  unfold matchIdFull at h
  unfold matchIdHead
  rw [Bool.or_eq_true] at h ⊢
  rcases h with h | h
  · exact Or.inl ((Bool.and_eq_true _ _).mp h).1
  · exact Or.inr (plBranch_imp cs h)

theorem runMatcher_mono {idm1 idm2 : List Char → Bool}
    (h : ∀ r, idm1 r = true → idm2 r = true) (cs : List Char)
    (hm : runMatcher idm1 cs = true) : runMatcher idm2 cs = true := by
  unfold runMatcher at hm ⊢
  rw [List.any_eq_true] at hm ⊢
  obtain ⟨sc, hsc, h1⟩ := hm
  refine ⟨sc, hsc, ?_⟩
  rw [List.any_eq_true] at h1 ⊢
  obtain ⟨sb, hsb, h2⟩ := h1
  refine ⟨sb, hsb, ?_⟩
  rw [List.any_eq_true] at h2 ⊢
  obtain ⟨hf, hhf, h3⟩ := h2
  refine ⟨hf, hhf, ?_⟩
  simp only [List.append_assoc] at h3 ⊢
  cases hsp : stripLit (sc.data ++ (sb.data ++ hf.data)) cs with
  | none => rw [hsp] at h3; simp at h3
  | some rest => rw [hsp] at h3; exact h _ h3

/-- Claim C7 (amended) — every input whose full text matches the recognized
URL grammar is classified as a direct link, and classification never fails
(it is a total Boolean test); but the classifier is prefix-anchored
(`re.match`), so any input with a grammar-matching prefix — for example a
valid URL followed by a space and arbitrary text — is also classified as a
direct link even though the full input lies outside the grammar. -/
theorem valid_of_inGrammar (s : String) (h : inGrammar s = true) :
    valid s = true :=
  runMatcher_mono matchIdFull_imp s.data h

/-- Witness for the amended C7: a bare short-link URL with an 11-character
id is in the grammar and is classified as a direct link. -/
theorem valid_of_inGrammar_witness :
    valid "youtu.be/dQw4w9WgXcQ" = true :=
  valid_of_inGrammar "youtu.be/dQw4w9WgXcQ" (by decide)

/-- Counterexample to Claim C7 as stated: the input
`youtu.be/dQw4w9WgXcQ evil text` is outside the recognized URL grammar (the
trailing ` evil text` is not a query string), yet `valid` classifies it as a
direct link, because `re.match` only anchors at the start. -/
theorem valid_accepts_trailing_garbage :
    valid "youtu.be/dQw4w9WgXcQ evil text" = true ∧
    inGrammar "youtu.be/dQw4w9WgXcQ evil text" = false := by
  decide

/-! ## Download Orchestrator (YouTube.download,
src/anony/core/youtube.py lines 69-125) -/

/-- Outcome of one awaited Python call: a value, or a raised exception. -/
inductive PyResult (α : Type) where
  | ok : α → PyResult α
  | exn : String → PyResult α

/-- Python `str(x)` on the `Optional[Path]` field `result.file_path`:
`str(None)` is the string `None`. -/
def pyStr : Option String → String
  | none => "None"
  | some s => s

/-- The Telegram-CDN link parse of `download` (lines 107-109):
`parts = cdn_url.rstrip("/").split("/")`, then `parts[-2]` and
`int(parts[-1])`.  `none` models the `IndexError`/`ValueError` that the
inner `except` catches. -/
def tgParse? (cdn : String) : Option (String × Int) :=
  let parts := (splitOnChar '/' (pyRstrip cdn '/').data).map String.mk
  match last2 parts with
  | none => none
  | some (chat, midS) =>
    match pyInt? midS with
    | none => none
    | some mid => some (chat, mid)

/-- Collaborators and configuration of one `YouTube.download` call:
`api_url` is the configured `API_URL` (empty = unset); `apiResp` the
behaviour of `client.make_request` — an exception, a falsy response
(`ok none`), or a truthy response dict whose `cdnurl` value is
`response.get("cdnurl")` (`none` = key missing); `downloadFile` the
behaviour of `client.download_file` per CDN URL; `getMessages` the
behaviour of `app.get_messages` per chat and message id (`ok none` = falsy
message, `ok (some tok)` = a message token); `msgDownload` the behaviour of
`msg.download()` per token. -/
structure OrchEnv where
  api_url : String
  apiResp : PyResult (Option (Option String))
  downloadFile : String → PyResult DownloadResult
  getMessages : String → Int → PyResult (Option Nat)
  msgDownload : Nat → PyResult String

/-- Externally observable actions of one `download` call. -/
inductive OAct where
  | apiCall : String → OAct
  | directDl : String → OAct
  | tgFetch : String → Int → OAct
  | tgDownload : OAct
deriving DecidableEq

/-- Body of the outer `try` of `download` (lines 82-118).  `Except.error`
is an exception that escapes the body (to be caught by the outer
`except Exception`); the inner Telegram `try/except` already converts its
own failures to `None`.  The second component is the action trace. -/
def ytTryBody (env : OrchEnv) (reqUrl : String) :
    Except String (Option String) × List OAct :=
  match env.apiResp with
  | PyResult.exn e => (Except.error e, [OAct.apiCall reqUrl])
  | PyResult.ok none => (Except.ok none, [OAct.apiCall reqUrl])
  | PyResult.ok (some cdnOpt) =>
    match cdnOpt with
    | none => (Except.ok none, [OAct.apiCall reqUrl])
    | some cdn =>
      if cdn = "" then (Except.ok none, [OAct.apiCall reqUrl])
      else if pyStartsWith cdn "https://t.me/" = false then
        match env.downloadFile cdn with
        | PyResult.exn e => (Except.error e, [OAct.apiCall reqUrl, OAct.directDl cdn])
        | PyResult.ok r =>
          (Except.ok (if r.success then some (pyStr r.file_path) else none),
            [OAct.apiCall reqUrl, OAct.directDl cdn])
      else
        match tgParse? cdn with
        | none => (Except.ok none, [OAct.apiCall reqUrl])
        | some (chat, mid) =>
          match env.getMessages chat mid with
          | PyResult.exn _ =>
            (Except.ok none, [OAct.apiCall reqUrl, OAct.tgFetch chat mid])
          | PyResult.ok none =>
            (Except.ok none, [OAct.apiCall reqUrl, OAct.tgFetch chat mid])
          | PyResult.ok (some tok) =>
            match env.msgDownload tok with
            | PyResult.exn _ =>
              (Except.ok none,
                [OAct.apiCall reqUrl, OAct.tgFetch chat mid, OAct.tgDownload])
            | PyResult.ok p =>
              (Except.ok (some p),
                [OAct.apiCall reqUrl, OAct.tgFetch chat mid, OAct.tgDownload])

/-- `YouTube.download(video_id, video)`: aborts on missing `API_URL` before
any network call, builds the request URL from the canonical watch URL, runs
the body, and converts any exception escaping the body to `None` via the
outer `except Exception` (the `finally` only closes the HTTP session). -/
def ytDownload (env : OrchEnv) (video_id : String) (video : Bool) :
    Except String (Option String) × List OAct :=
  if env.api_url = "" then (Except.ok none, [])
  else
    let reqUrl := env.api_url ++ "/api/track?url=" ++
      ("https://www.youtube.com/watch?v=" ++ video_id) ++
      "&video=" ++ (if video then "true" else "false")
    let b := ytTryBody env reqUrl
    (match b.1 with
     | Except.error _ => Except.ok none
     | Except.ok r => Except.ok r, b.2)

/-- Claim C1 — `YouTube.download` never raises to its caller: for every
behaviour of the configuration, the transcoding API, the direct download
transport and the messaging-platform collaborator (including any of them
raising), the call returns normally with an optional file path. -/
theorem ytDownload_never_raises (env : OrchEnv) (video_id : String)
    (video : Bool) :
    ∃ r : Option String, (ytDownload env video_id video).1 = Except.ok r := by
  unfold ytDownload
  by_cases h : env.api_url = ""
  · exact ⟨none, by simp [h]⟩
  · simp only [h, if_false]
    cases hb : (ytTryBody env _).1 with
    | error e => exact ⟨none, by simp [hb]⟩
    | ok r => exact ⟨r, by simp [hb]⟩

/-- Claim C8 — with the transcoding API base URL unconfigured, `download`
returns null immediately and performs no action at all (no network call). -/
theorem ytDownload_unconfigured (env : OrchEnv) (video_id : String)
    (video : Bool) (h : env.api_url = "") :
    ytDownload env video_id video = (Except.ok none, []) := by
  simp [ytDownload, h]

/-- Witness for C8: a concrete environment with empty `API_URL` yields null
and an empty action trace. -/
theorem ytDownload_unconfigured_witness :
    ytDownload
        ⟨"", PyResult.ok none, fun _ => PyResult.exn "x",
          fun _ _ => PyResult.exn "x", fun _ => PyResult.exn "x"⟩
        "dQw4w9WgXcQ" false = (Except.ok none, []) :=
  ytDownload_unconfigured _ _ _ rfl

/-- Claim C6 — branch correctness of the orchestrator.  If the API returns
`cdnurl = "https://t.me/channelname/12345"` (the messaging-platform prefix
followed by `channelname/12345`), the orchestrator fetches chat
`channelname`, message id `12345` via the messaging platform and performs no
direct download.  If it returns any nonempty `cdnurl` that does not start
with the prefix, the orchestrator invokes the direct streaming download on
it and performs no messaging-platform fetch. -/
theorem ytDownload_branch_correct (env : OrchEnv) (video_id : String)
    (video : Bool) (cdn : String) (hne : env.api_url ≠ "") :
    (env.apiResp = PyResult.ok (some (some "https://t.me/channelname/12345")) →
      OAct.tgFetch "channelname" 12345 ∈ (ytDownload env video_id video).2 ∧
      ∀ u, OAct.directDl u ∉ (ytDownload env video_id video).2) ∧
    (env.apiResp = PyResult.ok (some (some cdn)) → cdn ≠ "" →
      pyStartsWith cdn "https://t.me/" = false →
      OAct.directDl cdn ∈ (ytDownload env video_id video).2 ∧
      ∀ c m, OAct.tgFetch c m ∉ (ytDownload env video_id video).2) := by
  have hparse : tgParse? "https://t.me/channelname/12345" =
      some ("channelname", 12345) := by decide
  constructor
  · intro hresp
    rw [ytDownload]
    rw [if_neg hne]
    simp only [ytTryBody, hresp, hparse]
    have hpre : pyStartsWith "https://t.me/channelname/12345" "https://t.me/"
        = true := by decide
    rw [if_neg (by decide : ¬("https://t.me/channelname/12345" = "")), hpre]
    simp only [Bool.true_eq_false, if_false]
    cases hm : env.getMessages "channelname" 12345 with
    | exn e => simp
    | ok o =>
      cases o with
      | none => simp
      | some tok =>
        cases hd : env.msgDownload tok with
        | exn e => simp [hd]
        | ok p => simp [hd]
  · intro hresp hcdn hpre
    rw [ytDownload]
    rw [if_neg hne]
    simp only [ytTryBody, hresp]
    rw [if_neg hcdn, hpre]
    simp only [if_true]
    cases hd : env.downloadFile cdn with
    | exn e => simp [hd]
    | ok r => simp [hd]

/-- Witness for C6: with an API that returns the Telegram-style CDN URL,
the trace contains the platform fetch of chat `channelname`, message
`12345`, and no direct download. -/
theorem ytDownload_branch_correct_witness :
    OAct.tgFetch "channelname" 12345 ∈
      (ytDownload
        ⟨"https://api.example.com",
          PyResult.ok (some (some "https://t.me/channelname/12345")),
          fun _ => PyResult.exn "x", fun _ _ => PyResult.ok none,
          fun _ => PyResult.exn "x"⟩
        "dQw4w9WgXcQ" false).2 :=
  ((ytDownload_branch_correct _ "dQw4w9WgXcQ" false "u"
      (by decide)).1 rfl).1

/-! ## Metadata lookup — Track construction (YouTube.search lines 27-45 and
YouTube.playlist lines 47-67, src/anony/core/youtube.py) -/

/-- Modelled from the spec: the `Track` record (its defining class lives in
`anony/helpers`, outside `src/`); fields as listed in the spec's data
model. -/
structure Track where
  id : String
  title : String
  channel_name : String
  duration : String
  duration_sec : Option Nat
  url : String
  thumbnail : String
  view_count : String
  message_id : Option Int
  user : Option String
  video : Bool
deriving DecidableEq

/-- Modelled from the spec: `utils.to_seconds` (not under `src/`) —
`duration_sec` is derived by parsing the display duration `"3:25"` into
seconds, `none` when unparsable. -/
def to_seconds (s : String) : Option Nat :=
  let parts := splitOnChar ':' s.data
  if parts.all (fun p => decide (p ≠ []) && p.all Char.isDigit) then
    some (parts.foldl (fun acc p => acc * 60 + digitsVal p) 0)
  else none

/-- Shape of one search/playlist result consumed from the external
search/listing collaborator: `{id, channel.name, duration, title,
thumbnails[], link, viewCount.short}`. -/
structure SearchData where
  id : String
  channelName : String
  duration : String
  title : String
  thumbs : List String
  link : String
  viewShort : String

/-- First segment of `s.split("?")` — the query-parameter strip applied to
thumbnail URLs. -/
def beforeQuery (s : String) : String :=
  String.mk (splitOnChar '?' s.data).headI

/-- The `Track(...)` construction of `YouTube.search` (lines 33-44):
`title=data.get("title")[:25]`,
`thumbnail=data.get("thumbnails", [{}])[-1].get("url").split("?")[0]`,
`message_id=m_id`, `view_count=data.get("viewCount", {}).get("short")`. -/
def mkSearchTrack (d : SearchData) (m_id : Int) (video : Bool) : Track :=
  ⟨d.id, String.mk (d.title.data.take 25), d.channelName, d.duration,
    to_seconds d.duration, d.link, beforeQuery (d.thumbs.getLastD ""),
    d.viewShort, some m_id, none, video⟩

/-- The `Track(...)` construction of `YouTube.playlist` (lines 52-63):
`title=data.get("title")[:25]`, `url=data.get("link").split("&list=")[0]`,
`user=user`, `view_count=""` and no `message_id`. -/
def mkPlaylistTrack (d : SearchData) (user : String) (video : Bool) : Track :=
  ⟨d.id, String.mk (d.title.data.take 25), d.channelName, d.duration,
    to_seconds d.duration, splitBefore d.link "&list=",
    beforeQuery (d.thumbs.getLastD ""), "", none, some user, video⟩

/-- Claim C9 (amended) — the pipeline itself truncates `title` to its first
25 characters in both the search and the playlist constructions (so every
produced title has length at most 25), while `channel_name` is passed
through untruncated. -/
theorem track_title_truncation (d : SearchData) (m_id : Int) (user : String)
    (video : Bool) :
    (mkSearchTrack d m_id video).title = String.mk (d.title.data.take 25) ∧
    (mkSearchTrack d m_id video).title.length ≤ 25 ∧
    (mkSearchTrack d m_id video).channel_name = d.channelName ∧
    (mkPlaylistTrack d user video).title = String.mk (d.title.data.take 25) ∧
    (mkPlaylistTrack d user video).title.length ≤ 25 ∧
    (mkPlaylistTrack d user video).channel_name = d.channelName := by
  refine ⟨rfl, ?_, rfl, rfl, ?_, rfl⟩ <;>
    · show (d.title.data.take 25).length ≤ 25
      exact List.length_take_le 25 d.title.data

/-- Counterexample to Claim C9 as stated: a search result whose title has 30
characters produces a `Track` whose title is not the input title — the
pipeline itself truncated it to 25 characters, contradicting "truncation is
performed by the caller, not by the pipeline". -/
theorem track_title_truncated_by_pipeline :
    (mkSearchTrack
        ⟨"dQw4w9WgXcQ", "Rick Astley",
          "3:33", "abcdefghijklmnopqrstuvwxyz0123", ["https://i.ytimg.com/x"],
          "https://www.youtube.com/watch?v=dQw4w9WgXcQ", "1B"⟩
        7 false).title = "abcdefghijklmnopqrstuvwxy" ∧
    "abcdefghijklmnopqrstuvwxy" ≠ "abcdefghijklmnopqrstuvwxyz0123" := by
  decide

end AnonPipeline
